import Mathlib

/-!
# Verification of `dokuwikixmlrpc.py`

A shallow embedding of the DokuWiki XML-RPC client module.  The remote
server, the HTTP transport and the system clock are abstracted into an
environment `Env`; every client method is translated statement by
statement from the Python source into a pure Lean function that returns
its result together with the list of remote procedure calls it attempted.
-/

namespace Dokuwikixmlrpc

/-- The module version string, `__version__`, equal to 0.1. -/
def module_version : String := "0.1"

/-- Values exchanged with the remote wiki over XML-RPC, together with the
Python objects the command-line front end manipulates: strings, integers,
booleans, lists, string-keyed dictionaries and `None`. -/
inductive XValue where
  | str : String → XValue
  | int : Int → XValue
  | bool : Bool → XValue
  | list : List XValue → XValue
  | dict : List (String × XValue) → XValue
  | none : XValue

/-- Python truthiness (`if not revision`, `if data`, ...): `None`, `0`,
`False`, the empty string, the empty list and the empty dict are falsy. -/
def XValue.isTruthy : XValue → Bool
  | .str s => !s.isEmpty
  | .int n => n != 0
  | .bool b => b
  | .list xs => !xs.isEmpty
  | .dict kvs => !kvs.isEmpty
  | .none => false

mutual

/-- Python `str()` of a value: strings render as themselves, containers
render their elements through `repr()`. -/
def XValue.pystr : XValue → String
  | .str s => s
  | .int n => toString n
  | .bool b => if b then "True" else "False"
  | .none => "None"
  | .list xs => "[" ++ XValue.pyreprList xs ++ "]"
  | .dict kvs => "\x7b" ++ XValue.pyreprDict kvs ++ "\x7d"

/-- Python `repr()` of a value: like `str()` but strings are quoted. -/
def XValue.pyrepr : XValue → String
  | .str s => "\x27" ++ s ++ "\x27"
  | .int n => toString n
  | .bool b => if b then "True" else "False"
  | .none => "None"
  | .list xs => "[" ++ XValue.pyreprList xs ++ "]"
  | .dict kvs => "\x7b" ++ XValue.pyreprDict kvs ++ "\x7d"

/-- Comma-separated `repr()` of the elements of a list. -/
def XValue.pyreprList : List XValue → String
  | [] => ""
  | [x] => XValue.pyrepr x
  | x :: y :: xs => XValue.pyrepr x ++ ", " ++ XValue.pyreprList (y :: xs)

/-- Comma-separated `repr()` of the entries of a dict. -/
def XValue.pyreprDict : List (String × XValue) → String
  | [] => ""
  | [kv] => "\x27" ++ kv.1 ++ "\x27: " ++ XValue.pyrepr kv.2
  | kv :: l :: kvs =>
      "\x27" ++ kv.1 ++ "\x27: " ++ XValue.pyrepr kv.2 ++ ", " ++ XValue.pyreprDict (l :: kvs)

end

/-- An `xmlrpclib.Fault`: a structured error answer from the remote
interface, carrying a numeric code and a message string. -/
structure Fault where
  faultCode : Int
  faultString : String

/-- A Python object handed to `DokuWikiXMLRPCError.__init__`: either an
`xmlrpclib.Fault` instance or any other object. -/
inductive PyObj where
  | fault : Fault → PyObj
  | val : XValue → PyObj

/-- The `DokuWikiXMLRPCError` exception: a numeric field (named `page_id`
in the source) and a message object. -/
structure DokuWikiXMLRPCError where
  page_id : Int
  message : XValue

/-- Translation of `DokuWikiXMLRPCError.__init__` (src lines 49-57): a `Fault` argument
contributes its `faultCode` and `faultString`; any other object yields
code `0` with the object itself as the message. -/
def DokuWikiXMLRPCError.init : PyObj → DokuWikiXMLRPCError
  | .fault obj => ⟨obj.faultCode, .str obj.faultString⟩
  | .val obj => ⟨0, obj⟩

/-- Translation of `DokuWikiXMLRPCError.__str__` (src lines 59-61). -/
def DokuWikiXMLRPCError.render (e : DokuWikiXMLRPCError) : String :=
  "<DokuWikiXMLRPCError " ++ toString e.page_id ++ ": \x27" ++ e.message.pystr ++ "\x27>"

/-- Translation of `DokuWikiURLError.__str__` (src lines 72-74); the exception stores the
offending URL as its message. -/
def DokuWikiURLError.render (url : String) : String :=
  "DokuWikiURLError: Could not connect to <" ++ url ++ ">"

/-- One named remote procedure invocation: the XML-RPC method name and the
serialized parameters, in order. -/
structure RemoteCall where
  method : String
  args : List XValue

/-- Outcome of one XML-RPC call as seen by the caller: a value, an
`xmlrpclib.Fault`, or a transport-level exception (socket error,
`xmlrpclib.ProtocolError`, ...) identified by its rendering. -/
inductive RpcOutcome where
  | ok : XValue → RpcOutcome
  | fault : Fault → RpcOutcome
  | netError : String → RpcOutcome

/-- Outcome of `urllib2.urlopen` on a URL: success, `ValueError`,
`urllib2.HTTPError`, or any other exception (which `_xmlrpc_init` does not
catch). -/
inductive UrlopenOutcome where
  | ok : UrlopenOutcome
  | valueError : UrlopenOutcome
  | httpError : UrlopenOutcome
  | otherError : String → UrlopenOutcome

/-- The external world: the HTTP reachability probe, the XML-RPC server,
and the clock read by `recent_changes` dispatch. -/
structure Env where
  urlopen : String → UrlopenOutcome
  rpc : RemoteCall → RpcOutcome
  time : Int

/-- A Python exception escaping a call: the typed errors of the module
(`DokuWikiXMLRPCError`, `DokuWikiURLError`), `SystemExit` raised by
`parser.error`, or any other exception identified by its rendering. -/
inductive PyExc where
  | dokuWikiXMLRPCError : DokuWikiXMLRPCError → PyExc
  | dokuWikiURLError : String → PyExc
  | systemExit : String → PyExc
  | exc : String → PyExc

/-- Whether an exception is one of the typed errors of the module itself
(a subclass of `DokuWikiError`). -/
def PyExc.isDokuWikiError : PyExc → Bool
  | .dokuWikiXMLRPCError _ => true
  | .dokuWikiURLError _ => true
  | _ => false

/-- Observable side effects of client construction: one `urlopen`
reachability probe of a URL, or one named remote procedure call. -/
inductive Event where
  | urlCheck : String → Event
  | remote : RemoteCall → Event

/-- Number of `urlopen` reachability probes in a trace. -/
def countUrlChecks : List Event → Nat
  | [] => 0
  | .urlCheck _ :: es => countUrlChecks es + 1
  | .remote _ :: es => countUrlChecks es

/-- Number of named remote procedure calls in a trace. -/
def countRemoteOps : List Event → Nat
  | [] => 0
  | .urlCheck _ :: es => countRemoteOps es
  | .remote _ :: es => countRemoteOps es + 1

/-- The `DokuWikiClient` instance state: the attributes assigned in
`__init__` (src lines 96-104). -/
structure DokuWikiClient where
  _url : String
  _user : String
  _passwd : String
  _user_agent : String
  dokuwiki_version : XValue

/-- The `try: return self._xmlrpc.X(...) except xmlrpclib.Fault, fault:
raise DokuWikiXMLRPCError(fault)` pattern shared by every remote-calling
client method: one attempt of one named procedure; a `Fault` becomes the
typed error, any other transport exception propagates unchanged. -/
def rpcCall (env : Env) (c : RemoteCall) : Except PyExc XValue × List RemoteCall :=
  match env.rpc c with
  | .ok v => (.ok v, [c])
  | .fault f => (.error (.dokuWikiXMLRPCError (DokuWikiXMLRPCError.init (.fault f))), [c])
  | .netError e => (.error (.exc e), [c])

/-- Translation of `DokuWikiClient._dokuwiki_version` (src lines 126-131). -/
def DokuWikiClient._dokuwiki_version (env : Env) (self : DokuWikiClient) :
    (Except PyExc XValue × List RemoteCall) × DokuWikiClient :=
  (rpcCall env ⟨"dokuwiki.getVersion", []⟩, self)

/-- Translation of `DokuWikiClient.rpc_version_supported` (src lines 134-139). -/
def DokuWikiClient.rpc_version_supported (env : Env) (self : DokuWikiClient) :
    (Except PyExc XValue × List RemoteCall) × DokuWikiClient :=
  (rpcCall env ⟨"wiki.getRPCVersionSupported", []⟩, self)

/-- Translation of `DokuWikiClient.page` (src lines 142-155); `revision` defaults to
`None` at call sites. -/
def DokuWikiClient.page (env : Env) (self : DokuWikiClient)
    (page_id revision : XValue) :
    (Except PyExc XValue × List RemoteCall) × DokuWikiClient :=
  if !revision.isTruthy then
    (rpcCall env ⟨"wiki.getPage", [page_id]⟩, self)
  else
    (rpcCall env ⟨"wiki.getPageVersion", [page_id, revision]⟩, self)

/-- Translation of `DokuWikiClient.page_versions` (src lines 158-163); `offset` defaults
to `0` at call sites. -/
def DokuWikiClient.page_versions (env : Env) (self : DokuWikiClient)
    (page_id offset : XValue) :
    (Except PyExc XValue × List RemoteCall) × DokuWikiClient :=
  (rpcCall env ⟨"wiki.getPageVersions", [page_id, offset]⟩, self)

/-- Translation of `DokuWikiClient.page_info` (src lines 166-179); `revision` defaults to
`None` at call sites. -/
def DokuWikiClient.page_info (env : Env) (self : DokuWikiClient)
    (page_id revision : XValue) :
    (Except PyExc XValue × List RemoteCall) × DokuWikiClient :=
  if !revision.isTruthy then
    (rpcCall env ⟨"wiki.getPageInfo", [page_id]⟩, self)
  else
    (rpcCall env ⟨"wiki.getPageInfoVersion", [page_id, revision]⟩, self)

/-- Translation of `DokuWikiClient.page_html` (src lines 182-195); `revision` defaults to
`None` at call sites. -/
def DokuWikiClient.page_html (env : Env) (self : DokuWikiClient)
    (page_id revision : XValue) :
    (Except PyExc XValue × List RemoteCall) × DokuWikiClient :=
  if !revision.isTruthy then
    (rpcCall env ⟨"wiki.getPageHTML", [page_id]⟩, self)
  else
    (rpcCall env ⟨"wiki.getPageHTMLVersion", [page_id, revision]⟩, self)

/-- Translation of `DokuWikiClient.put_page` (src lines 198-214): builds the
params dict from the sum and minor keyword values and calls `wiki.putPage`.
The body has no `return` statement, so the remote response is discarded
and the method returns `None`. -/
def DokuWikiClient.put_page (env : Env) (self : DokuWikiClient)
    (page_id text summary minor : XValue) :
    (Except PyExc XValue × List RemoteCall) × DokuWikiClient :=
  let params : XValue := .dict [("sum", summary), ("minor", minor)]
  let c : RemoteCall := ⟨"wiki.putPage", [page_id, text, params]⟩
  match env.rpc c with
  | .ok _ => ((.ok XValue.none, [c]), self)
  | .fault f =>
      ((.error (.dokuWikiXMLRPCError (DokuWikiXMLRPCError.init (.fault f))), [c]), self)
  | .netError e => ((.error (.exc e), [c]), self)

/-- Translation of `DokuWikiClient.all_pages` (src lines 217-222). -/
def DokuWikiClient.all_pages (env : Env) (self : DokuWikiClient) :
    (Except PyExc XValue × List RemoteCall) × DokuWikiClient :=
  (rpcCall env ⟨"wiki.getAllPages", []⟩, self)

/-- Translation of `DokuWikiClient.backlinks` (src lines 225-230). -/
def DokuWikiClient.backlinks (env : Env) (self : DokuWikiClient)
    (page_id : XValue) :
    (Except PyExc XValue × List RemoteCall) × DokuWikiClient :=
  (rpcCall env ⟨"wiki.getBackLinks", [page_id]⟩, self)

/-- Translation of `DokuWikiClient.links` (src lines 233-238). -/
def DokuWikiClient.links (env : Env) (self : DokuWikiClient)
    (page_id : XValue) :
    (Except PyExc XValue × List RemoteCall) × DokuWikiClient :=
  (rpcCall env ⟨"wiki.listLinks", [page_id]⟩, self)

/-- Translation of `DokuWikiClient.recent_changes` (src lines 241-246). -/
def DokuWikiClient.recent_changes (env : Env) (self : DokuWikiClient)
    (timestamp : XValue) :
    (Except PyExc XValue × List RemoteCall) × DokuWikiClient :=
  (rpcCall env ⟨"wiki.getRecentChanges", [timestamp]⟩, self)

/-- Translation of `DokuWikiClient.acl_check` (src lines 249-254). -/
def DokuWikiClient.acl_check (env : Env) (self : DokuWikiClient)
    (page_id : XValue) :
    (Except PyExc XValue × List RemoteCall) × DokuWikiClient :=
  (rpcCall env ⟨"wiki.aclCheck", [page_id]⟩, self)

/-- Translation of `DokuWikiClient.put_file` (src lines 256-258): the body is `pass`, so
the method performs no remote call and returns `None`. -/
def DokuWikiClient.put_file (env : Env) (self : DokuWikiClient)
    (ns filename name overwrite : XValue) :
    (Except PyExc XValue × List RemoteCall) × DokuWikiClient :=
  ((.ok XValue.none, []), self)

/-- Translation of `DokuWikiClient.list_files` (src lines 260-262): the body is `pass`,
so the method performs no remote call and returns `None`. -/
def DokuWikiClient.list_files (env : Env) (self : DokuWikiClient)
    (ns : XValue) :
    (Except PyExc XValue × List RemoteCall) × DokuWikiClient :=
  ((.ok XValue.none, []), self)

/-- Translation of `DokuWikiClient._xmlrpc_init` (src lines 109-123): probe the
endpoint with `urlopen` on the xmlrpc.php URL, turning `ValueError`
and `HTTPError` into `DokuWikiURLError`; other exceptions propagate.  On
success the `ServerProxy` is built (no network traffic of its own). -/
def DokuWikiClient._xmlrpc_init (env : Env) (url : String) :
    Except PyExc Unit × List Event :=
  match env.urlopen (url ++ "/lib/exe/xmlrpc.php?") with
  | .valueError => (.error (.dokuWikiURLError url), [.urlCheck (url ++ "/lib/exe/xmlrpc.php?")])
  | .httpError => (.error (.dokuWikiURLError url), [.urlCheck (url ++ "/lib/exe/xmlrpc.php?")])
  | .otherError e => (.error (.exc e), [.urlCheck (url ++ "/lib/exe/xmlrpc.php?")])
  | .ok => (.ok (), [.urlCheck (url ++ "/lib/exe/xmlrpc.php?")])

/-- Translation of `DokuWikiClient.__init__` (src lines 87-106): store the connection
parameters, call `self._xmlrpc_init()` (src line 100, result discarded),
call it again to obtain `self._xmlrpc` (src line 101), then fetch and
store `self.dokuwiki_version`, turning a `Fault` into
`DokuWikiXMLRPCError`. -/
def DokuWikiClient.init (env : Env) (url user passwd : String) :
    Except PyExc DokuWikiClient × List Event :=
  let user_agent := "DokuWikiXMLRPC " ++ module_version ++ "by (www.chimeric.de)"
  match DokuWikiClient._xmlrpc_init env url with
  | (.error e, tr1) => (.error e, tr1)
  | (.ok _, tr1) =>
    match DokuWikiClient._xmlrpc_init env url with
    | (.error e, tr2) => (.error e, tr1 ++ tr2)
    | (.ok _, tr2) =>
      match env.rpc ⟨"dokuwiki.getVersion", []⟩ with
      | .ok v =>
          (.ok ⟨url, user, passwd, user_agent, v⟩,
           tr1 ++ tr2 ++ [.remote ⟨"dokuwiki.getVersion", []⟩])
      | .fault f =>
          (.error (.dokuWikiXMLRPCError (DokuWikiXMLRPCError.init (.fault f))),
           tr1 ++ tr2 ++ [.remote ⟨"dokuwiki.getVersion", []⟩])
      | .netError e =>
          (.error (.exc e), tr1 ++ tr2 ++ [.remote ⟨"dokuwiki.getVersion", []⟩])

/-- The eight option flags of the command-line front end that carry a
`Callback` action, identified by their `dest` name (src lines 377-423). -/
inductive CliOption where
  | page : CliOption
  | page_html : CliOption
  | page_info : CliOption
  | recent_changes : CliOption
  | page_versions : CliOption
  | backlinks : CliOption
  | all_pages : CliOption
  | links : CliOption

/-- The option parser values at the time a callback fires: `user`, `wiki`,
`passwd` and `timestamp` options (unset options are `None`) and the
remaining positional arguments `rargs`. -/
structure ParserValues where
  user : Option String
  wiki : Option String
  passwd : Option String
  timestamp : Option Int
  rargs : List String

/-- Python truthiness of an optparse string value: `None` and the empty
string are falsy. -/
def optStrTruthy : Option String → Bool
  | some s => !s.isEmpty
  | Option.none => false

/-- Python truthiness of the `timestamp` option: `None` and `0` are falsy. -/
def optIntTruthy : Option Int → Bool
  | some t => t != 0
  | Option.none => false

/-- Python iteration `for item in data`: lists yield their elements,
strings their characters, dicts their keys; other values raise
`TypeError`. -/
def pyIter : XValue → Except String (List XValue)
  | .list xs => .ok xs
  | .str s => .ok (s.toList.map (fun c => XValue.str (String.mk [c])))
  | .dict kvs => .ok (kvs.map (fun kv => XValue.str kv.1))
  | _ => .error "TypeError: iteration over non-sequence"

/-- Python `data.keys()` access: only dicts have it; other values raise
`AttributeError`. -/
def pyKeys : XValue → Except String (List (String × XValue))
  | .dict kvs => .ok kvs
  | _ => .error "AttributeError: keys"

/-- Translation of `Callback._get_page_id` (src lines 312-317): pop the last positional
argument, or abort via `parser.error` when there is none. -/
def Callback._get_page_id (rargs : List String) : Except PyExc String :=
  match rargs.getLast? with
  | some pid => .ok pid
  | Option.none => .error (.systemExit "You have to specify a Wiki page.")

/-- Attach the format tag the dispatcher pairs with a method result. -/
def withFormat (fmt : String) :
    Except PyExc XValue × List RemoteCall → Except PyExc (XValue × String) × List RemoteCall
  | (.ok d, cs) => (.ok (d, fmt), cs)
  | (.error e, cs) => (.error e, cs)

/-- Translation of `Callback.dispatch` (src lines 320-348): map the selected option
`dest` to one client method call and a format tag (`plain`, `list` or
`dict`).  `page` and `page_html` pass the `--time` value as revision when
it is truthy; `recent_changes` substitutes the current clock time for a
falsy `--time` value. -/
def Callback.dispatch (env : Env) (client : DokuWikiClient)
    (pv : ParserValues) (opt : CliOption) :
    Except PyExc (XValue × String) × List RemoteCall :=
  match opt with
  | .page =>
    match Callback._get_page_id pv.rargs with
    | .error e => (.error e, [])
    | .ok pid =>
      if !optIntTruthy pv.timestamp then
        withFormat "plain" (DokuWikiClient.page env client (.str pid) XValue.none).1
      else
        withFormat "plain"
          (DokuWikiClient.page env client (.str pid) (.int (pv.timestamp.getD 0))).1
  | .page_html =>
    match Callback._get_page_id pv.rargs with
    | .error e => (.error e, [])
    | .ok pid =>
      if !optIntTruthy pv.timestamp then
        withFormat "plain" (DokuWikiClient.page_html env client (.str pid) XValue.none).1
      else
        withFormat "plain"
          (DokuWikiClient.page_html env client (.str pid) (.int (pv.timestamp.getD 0))).1
  | .backlinks =>
    match Callback._get_page_id pv.rargs with
    | .error e => (.error e, [])
    | .ok pid =>
      withFormat "list" (DokuWikiClient.backlinks env client (.str pid)).1
  | .page_info =>
    match Callback._get_page_id pv.rargs with
    | .error e => (.error e, [])
    | .ok pid =>
      withFormat "dict" (DokuWikiClient.page_info env client (.str pid) XValue.none).1
  | .page_versions =>
    match Callback._get_page_id pv.rargs with
    | .error e => (.error e, [])
    | .ok pid =>
      withFormat "dict" (DokuWikiClient.page_versions env client (.str pid) (.int 0)).1
  | .links =>
    match Callback._get_page_id pv.rargs with
    | .error e => (.error e, [])
    | .ok pid =>
      withFormat "dict" (DokuWikiClient.links env client (.str pid)).1
  | .all_pages =>
    withFormat "list" (DokuWikiClient.all_pages env client).1
  | .recent_changes =>
    let ts : Int := if !optIntTruthy pv.timestamp then env.time else pv.timestamp.getD 0
    withFormat "dict" (DokuWikiClient.recent_changes env client (.int ts)).1

/-- The inner loop of the `dict` format on a list of mappings
(src lines 298-302): for each item its `key: value` lines, then
`print "\n"`. -/
def Callback.formatDictList : List XValue → Except String (List String)
  | [] => .ok []
  | item :: items =>
    match pyKeys item with
    | .error e => .error e
    | .ok kvs =>
      match Callback.formatDictList items with
      | .error e => .error e
      | .ok rest =>
        .ok (kvs.map (fun kv => kv.1 ++ ": " ++ kv.2.pystr) ++ ["\n"] ++ rest)

/-- The output block of `Callback.__init__` (src lines 289-306): nothing
is printed when `data` is falsy; otherwise `plain` prints `str(data)`,
`list` prints each item on its own line, and `dict` prints `key: value`
lines, per item for a list of mappings.  Each returned string is the
argument of one `print` statement. -/
def Callback.formatOutput (data : XValue) (format : String) : Except String (List String) :=
  if data.isTruthy then
    if format == "plain" then
      .ok [data.pystr]
    else if format == "list" then
      match pyIter data with
      | .error e => .error e
      | .ok items => .ok (items.map XValue.pystr)
    else if format == "dict" then
      match data with
      | .list xs => Callback.formatDictList xs
      | _ =>
        match pyKeys data with
        | .error e => .error e
        | .ok kvs => .ok (kvs.map (fun kv => kv.1 ++ ": " ++ kv.2.pystr))
    else
      .ok []
  else
    .ok []

/-- The usage line printed by `parser.print_usage()` when a credential
option is missing (src lines 308-309, 363). -/
def usage_text : String :=
  "Usage: dokuwikixmlrpc.py -u <username> -w <wikiurl> -p <passwd> [options] [wiki:page]"

/-- Translation of `Callback.__init__` (src lines 273-309): when `user`, `wiki` and
`passwd` are all truthy, construct a `DokuWikiClient` (`parser.error`,
i.e. `SystemExit`, on its typed errors), dispatch the selected option and
print the formatted result; otherwise print the usage text.  Returns the
printed lines and the trace of remote events of the whole run. -/
def Callback.run (env : Env) (pv : ParserValues) (opt : CliOption) :
    Except PyExc (List String) × List Event :=
  if optStrTruthy pv.user && optStrTruthy pv.wiki && optStrTruthy pv.passwd then
    match DokuWikiClient.init env (pv.wiki.getD "") (pv.user.getD "") (pv.passwd.getD "") with
    | (.error (.dokuWikiXMLRPCError e), tr) =>
        (.error (.systemExit (DokuWikiXMLRPCError.render e)), tr)
    | (.error (.dokuWikiURLError u), tr) =>
        (.error (.systemExit (DokuWikiURLError.render u)), tr)
    | (.error e, tr) => (.error e, tr)
    | (.ok client, tr) =>
      match Callback.dispatch env client pv opt with
      | (.error e, cs) => (.error e, tr ++ cs.map Event.remote)
      | (.ok (data, fmt), cs) =>
        match Callback.formatOutput data fmt with
        | .error e => (.error (.exc e), tr ++ cs.map Event.remote)
        | .ok lines => (.ok lines, tr ++ cs.map Event.remote)
  else
    (.ok [usage_text], [])

/-! ## Concrete environments and helper lemmas -/

/-- A healthy environment: endpoint reachable, every remote call answered
with a version string. -/
def envOk : Env :=
  ⟨fun _ => UrlopenOutcome.ok, fun _ => RpcOutcome.ok (XValue.str "release 2008-05-05"), 1200000000⟩

/-- The client `envOk` construction yields. -/
def clientOk : DokuWikiClient :=
  ⟨"http://wiki.example.org", "user", "secret",
   "DokuWikiXMLRPC " ++ module_version ++ "by (www.chimeric.de)",
   XValue.str "release 2008-05-05"⟩

/-- Reachable endpoint, every remote call answered with a fixed value. -/
def envSaved : Env :=
  ⟨fun _ => UrlopenOutcome.ok, fun _ => RpcOutcome.ok (XValue.str "page saved"), 0⟩

/-- Reachable endpoint, every remote call answered with the empty string. -/
def envEmpty : Env :=
  ⟨fun _ => UrlopenOutcome.ok, fun _ => RpcOutcome.ok (XValue.str ""), 0⟩

/-- Reachable endpoint, every remote call faulting with `f`. -/
def envFault (f : Fault) : Env :=
  ⟨fun _ => UrlopenOutcome.ok, fun _ => RpcOutcome.fault f, 0⟩

/-- Reachable endpoint, every remote call failing at transport level. -/
def envNet (s : String) : Env :=
  ⟨fun _ => UrlopenOutcome.ok, fun _ => RpcOutcome.netError s, 0⟩

/-- Parser values of a run with full credentials, no `--time`, and one
positional page argument. -/
def pvOk : ParserValues :=
  ⟨some "user", some "http://wiki.example.org", some "secret", Option.none, ["wiki:start"]⟩

/-- The typed error a fault `f` must surface as. -/
def typedErr (f : Fault) : Except PyExc XValue :=
  .error (.dokuWikiXMLRPCError ⟨f.faultCode, .str f.faultString⟩)

lemma rpcCall_snd (env : Env) (c : RemoteCall) : (rpcCall env c).2 = [c] := by
  unfold rpcCall
  split <;> rfl

lemma withFormat_snd (fmt : String) (p : Except PyExc XValue × List RemoteCall) :
    (withFormat fmt p).2 = p.2 := by
  obtain ⟨r, cs⟩ := p
  cases r <;> rfl

lemma withFormat_fst_ok {fmt : String} {p : Except PyExc XValue × List RemoteCall}
    {d : XValue} {f : String} (h : (withFormat fmt p).1 = .ok (d, f)) : f = fmt := by
  obtain ⟨r, cs⟩ := p
  cases r with
  | ok v =>
      simp only [withFormat] at h
      obtain ⟨-, h2⟩ := Prod.mk.injEq .. ▸ Except.ok.inj h
      exact h2.symm
  | error e => simp [withFormat] at h

lemma xmlrpc_init_snd (env : Env) (url : String) :
    (DokuWikiClient._xmlrpc_init env url).2
      = [Event.urlCheck (url ++ "/lib/exe/xmlrpc.php?")] := by
  unfold DokuWikiClient._xmlrpc_init
  split <;> rfl

lemma page_calls (env : Env) (self : DokuWikiClient) (a b : XValue) :
    ∃ c, (DokuWikiClient.page env self a b).1.2 = [c] := by
  unfold DokuWikiClient.page
  split <;> exact ⟨_, rpcCall_snd _ _⟩

lemma page_info_calls (env : Env) (self : DokuWikiClient) (a b : XValue) :
    ∃ c, (DokuWikiClient.page_info env self a b).1.2 = [c] := by
  unfold DokuWikiClient.page_info
  split <;> exact ⟨_, rpcCall_snd _ _⟩

lemma page_html_calls (env : Env) (self : DokuWikiClient) (a b : XValue) :
    ∃ c, (DokuWikiClient.page_html env self a b).1.2 = [c] := by
  unfold DokuWikiClient.page_html
  split <;> exact ⟨_, rpcCall_snd _ _⟩

lemma put_page_calls (env : Env) (self : DokuWikiClient) (a b c d : XValue) :
    ∃ rc, (DokuWikiClient.put_page env self a b c d).1.2 = [rc] := by
  simp only [DokuWikiClient.put_page]
  split <;> exact ⟨_, rfl⟩

/-! ## The claims -/

/-- C1 (code bug): the spec — and the class docstring, src lines 80-83 —
say every bound client method returns the remote response unmodified, in
particular that `put_page` returns the response of `wiki.putPage`.  But
`put_page` (src line 212) invokes `wiki.putPage` without a `return`
statement, so the remote response is discarded and the method returns
`None` even when the remote replies with a value. -/
theorem put_page_discards_putPage_response :
    envSaved.rpc ⟨"wiki.putPage",
        [XValue.str "wiki:id", XValue.str "new text",
         XValue.dict [("sum", XValue.str ""), ("minor", XValue.none)]]⟩
      = RpcOutcome.ok (XValue.str "page saved")
  ∧ (DokuWikiClient.put_page envSaved clientOk
        (XValue.str "wiki:id") (XValue.str "new text") (XValue.str "") XValue.none).1
      = (Except.ok XValue.none,
         [⟨"wiki.putPage",
           [XValue.str "wiki:id", XValue.str "new text",
            XValue.dict [("sum", XValue.str ""), ("minor", XValue.none)]]⟩])
  ∧ XValue.str "page saved" ≠ XValue.none :=
  ⟨rfl, rfl, fun h => XValue.noConfusion h⟩

/-- C2: a remote fault surfaces locally as a `DokuWikiXMLRPCError`
carrying exactly the numeric code and message string of the fault, and every
public client method that performs a remote call converts the fault this
way (the result type lets no raw `Fault` escape). -/
theorem fault_surfaces_as_typed_error_with_code_and_message :
    ∀ (f : Fault) (self : DokuWikiClient) (a b c d : XValue),
      DokuWikiXMLRPCError.init (.fault f) = ⟨f.faultCode, XValue.str f.faultString⟩
    ∧ (DokuWikiClient.page (envFault f) self a b).1.1 = typedErr f
    ∧ (DokuWikiClient.page_versions (envFault f) self a b).1.1 = typedErr f
    ∧ (DokuWikiClient.page_info (envFault f) self a b).1.1 = typedErr f
    ∧ (DokuWikiClient.page_html (envFault f) self a b).1.1 = typedErr f
    ∧ (DokuWikiClient.put_page (envFault f) self a b c d).1.1 = typedErr f
    ∧ (DokuWikiClient.all_pages (envFault f) self).1.1 = typedErr f
    ∧ (DokuWikiClient.backlinks (envFault f) self a).1.1 = typedErr f
    ∧ (DokuWikiClient.links (envFault f) self a).1.1 = typedErr f
    ∧ (DokuWikiClient.recent_changes (envFault f) self a).1.1 = typedErr f
    ∧ (DokuWikiClient.acl_check (envFault f) self a).1.1 = typedErr f
    ∧ (DokuWikiClient.rpc_version_supported (envFault f) self).1.1 = typedErr f := by
  intro f self a b c d
  refine ⟨rfl, ?_, rfl, ?_, ?_, rfl, rfl, rfl, rfl, rfl, rfl, rfl⟩
  · unfold DokuWikiClient.page
    split <;> rfl
  · unfold DokuWikiClient.page_info
    split <;> rfl
  · unfold DokuWikiClient.page_html
    split <;> rfl

/-- C5: `put_file` and `list_files` are unimplemented stubs: for every
input they perform no remote call, never raise, and return `None`. -/
theorem put_file_and_list_files_are_stubs :
    ∀ (env : Env) (self : DokuWikiClient) (ns filename name overwrite : XValue),
      DokuWikiClient.put_file env self ns filename name overwrite
        = ((Except.ok XValue.none, []), self)
    ∧ DokuWikiClient.list_files env self ns = ((Except.ok XValue.none, []), self) :=
  fun _ _ _ _ _ _ => ⟨rfl, rfl⟩

/-- C10: constructing a `DokuWikiXMLRPCError` from anything that is not an
`xmlrpclib.Fault` stores numeric code `0` in `page_id` and the object
itself as the message. -/
theorem non_fault_error_has_code_zero_and_object_message :
    ∀ v : XValue, DokuWikiXMLRPCError.init (.val v) = ⟨0, v⟩ :=
  fun _ => rfl

/-- C9: when the dispatched result is falsy (`None`, the empty string, the
empty list, the empty dict, and also zero and False), the output block of
the `Callback` constructor prints
nothing, whatever the format tag. -/
theorem falsy_result_prints_nothing :
    ∀ (data : XValue) (format : String),
      data.isTruthy = false → Callback.formatOutput data format = .ok [] := by
  intro data format h
  unfold Callback.formatOutput
  rw [h]
  rfl

/-- Witness for C9 at concrete falsy inputs. -/
theorem falsy_result_prints_nothing_witness :
    Callback.formatOutput (XValue.list []) "dict" = .ok []
  ∧ Callback.formatOutput (XValue.str "") "plain" = .ok []
  ∧ Callback.formatOutput XValue.none "list" = .ok [] :=
  ⟨falsy_result_prints_nothing (XValue.list []) "dict" rfl,
   falsy_result_prints_nothing (XValue.str "") "plain" rfl,
   falsy_result_prints_nothing XValue.none "list" rfl⟩

/-- Inversion of a successful construction: the stored fields equal the
constructor arguments and the event trace is exactly two reachability
probes followed by one `dokuwiki.getVersion` call. -/
lemma init_ok_inv (env : Env) (url user passwd : String) (st : DokuWikiClient)
    (tr : List Event)
    (h : DokuWikiClient.init env url user passwd = (.ok st, tr)) :
    st._url = url ∧ st._user = user ∧ st._passwd = passwd
  ∧ tr = [Event.urlCheck (url ++ "/lib/exe/xmlrpc.php?"),
          Event.urlCheck (url ++ "/lib/exe/xmlrpc.php?"),
          Event.remote ⟨"dokuwiki.getVersion", []⟩] := by
  unfold DokuWikiClient.init DokuWikiClient._xmlrpc_init at h
  cases hu : env.urlopen (url ++ "/lib/exe/xmlrpc.php?") <;> rw [hu] at h
  case valueError => exact absurd h (by simp)
  case httpError => exact absurd h (by simp)
  case otherError e => exact absurd h (by simp)
  case ok =>
    cases hr : env.rpc ⟨"dokuwiki.getVersion", []⟩ <;> rw [hr] at h
    case fault f => exact absurd h (by simp)
    case netError e => exact absurd h (by simp)
    case ok v =>
      obtain ⟨h1, h2⟩ := Prod.mk.injEq .. ▸ h
      obtain rfl := (Except.ok.inj h1).symm
      exact ⟨rfl, rfl, rfl, h2.symm⟩

/-- C3 counterexample: construction succeeds but performs the endpoint
reachability probe twice (`_xmlrpc_init` is called at src lines 100 and
101), refuting "exactly one reachability check". -/
theorem init_reachability_check_runs_twice :
    (DokuWikiClient.init envOk "http://wiki.example.org" "user" "secret").1
      = Except.ok clientOk
  ∧ countUrlChecks (DokuWikiClient.init envOk "http://wiki.example.org" "user" "secret").2 = 2
  ∧ countUrlChecks (DokuWikiClient.init envOk "http://wiki.example.org" "user" "secret").2 ≠ 1 :=
  ⟨rfl, rfl, by decide⟩

/-- C3 (amended): every successful construction performs exactly two
reachability checks of the endpoint URL and exactly one version handshake
(`dokuwiki.getVersion`), and no other remote operation — the trace is
exactly those three events, in that order. -/
theorem init_two_checks_one_handshake_only :
    ∀ (env : Env) (url user passwd : String) (st : DokuWikiClient) (tr : List Event),
      DokuWikiClient.init env url user passwd = (.ok st, tr) →
      tr = [Event.urlCheck (url ++ "/lib/exe/xmlrpc.php?"),
            Event.urlCheck (url ++ "/lib/exe/xmlrpc.php?"),
            Event.remote ⟨"dokuwiki.getVersion", []⟩]
    ∧ countUrlChecks tr = 2 ∧ countRemoteOps tr = 1 := by
  intro env url user passwd st tr h
  obtain ⟨-, -, -, htr⟩ := init_ok_inv env url user passwd st tr h
  subst htr
  exact ⟨rfl, rfl, rfl⟩

/-- Witness for C3 (amended) at a concrete healthy environment. -/
theorem init_two_checks_one_handshake_only_witness :
    [Event.urlCheck "http://wiki.example.org/lib/exe/xmlrpc.php?",
     Event.urlCheck "http://wiki.example.org/lib/exe/xmlrpc.php?",
     Event.remote ⟨"dokuwiki.getVersion", []⟩]
      = [Event.urlCheck ("http://wiki.example.org" ++ "/lib/exe/xmlrpc.php?"),
         Event.urlCheck ("http://wiki.example.org" ++ "/lib/exe/xmlrpc.php?"),
         Event.remote ⟨"dokuwiki.getVersion", []⟩]
  ∧ countUrlChecks [Event.urlCheck "http://wiki.example.org/lib/exe/xmlrpc.php?",
       Event.urlCheck "http://wiki.example.org/lib/exe/xmlrpc.php?",
       Event.remote ⟨"dokuwiki.getVersion", []⟩] = 2
  ∧ countRemoteOps [Event.urlCheck "http://wiki.example.org/lib/exe/xmlrpc.php?",
       Event.urlCheck "http://wiki.example.org/lib/exe/xmlrpc.php?",
       Event.remote ⟨"dokuwiki.getVersion", []⟩] = 1 :=
  init_two_checks_one_handshake_only envOk "http://wiki.example.org" "user" "secret"
    clientOk
    [Event.urlCheck "http://wiki.example.org/lib/exe/xmlrpc.php?",
     Event.urlCheck "http://wiki.example.org/lib/exe/xmlrpc.php?",
     Event.remote ⟨"dokuwiki.getVersion", []⟩] rfl

/-- C7: the connection parameters are fixed after construction: a
successful `__init__` stores exactly the values it was given in `_url`,
`_user` and `_passwd`, and no public method changes the instance state,
whether the remote call succeeds or raises. -/
theorem connection_parameters_fixed :
    (∀ (env : Env) (url user passwd : String) (st : DokuWikiClient) (tr : List Event),
       DokuWikiClient.init env url user passwd = (.ok st, tr) →
       st._url = url ∧ st._user = user ∧ st._passwd = passwd)
  ∧ (∀ (env : Env) (self : DokuWikiClient) (a b c d : XValue),
       (DokuWikiClient.page env self a b).2 = self
     ∧ (DokuWikiClient.page_versions env self a b).2 = self
     ∧ (DokuWikiClient.page_info env self a b).2 = self
     ∧ (DokuWikiClient.page_html env self a b).2 = self
     ∧ (DokuWikiClient.put_page env self a b c d).2 = self
     ∧ (DokuWikiClient.all_pages env self).2 = self
     ∧ (DokuWikiClient.backlinks env self a).2 = self
     ∧ (DokuWikiClient.links env self a).2 = self
     ∧ (DokuWikiClient.recent_changes env self a).2 = self
     ∧ (DokuWikiClient.acl_check env self a).2 = self
     ∧ (DokuWikiClient.rpc_version_supported env self).2 = self
     ∧ (DokuWikiClient.put_file env self a b c d).2 = self
     ∧ (DokuWikiClient.list_files env self a).2 = self) := by
  constructor
  · intro env url user passwd st tr h
    obtain ⟨h1, h2, h3, -⟩ := init_ok_inv env url user passwd st tr h
    exact ⟨h1, h2, h3⟩
  · intro env self a b c d
    refine ⟨?_, rfl, ?_, ?_, ?_, rfl, rfl, rfl, rfl, rfl, rfl, rfl, rfl⟩
    · unfold DokuWikiClient.page
      split <;> rfl
    · unfold DokuWikiClient.page_info
      split <;> rfl
    · unfold DokuWikiClient.page_html
      split <;> rfl
    · simp only [DokuWikiClient.put_page]
      split <;> rfl

/-- Witness for C7 at a concrete construction and method call. -/
theorem connection_parameters_fixed_witness :
    (clientOk._url = "http://wiki.example.org" ∧ clientOk._user = "user"
       ∧ clientOk._passwd = "secret")
  ∧ (DokuWikiClient.acl_check envOk clientOk (XValue.str "wiki:start")).2 = clientOk :=
  ⟨connection_parameters_fixed.1 envOk "http://wiki.example.org" "user" "secret"
      clientOk
      [Event.urlCheck "http://wiki.example.org/lib/exe/xmlrpc.php?",
       Event.urlCheck "http://wiki.example.org/lib/exe/xmlrpc.php?",
       Event.remote ⟨"dokuwiki.getVersion", []⟩] rfl,
   (connection_parameters_fixed.2 envOk clientOk (XValue.str "wiki:start")
      XValue.none XValue.none XValue.none).2.2.2.2.2.2.2.2.2.2.1⟩

/-- C8 counterexample: a transport-level failure on the single attempt is
not converted to the typed error of the module — only `xmlrpclib.Fault` is
caught (src line 154), so the underlying exception escapes untyped. -/
theorem network_failure_escapes_untyped :
    (DokuWikiClient.page (envNet "socket.error: connection reset") clientOk
        (XValue.str "wiki:start") XValue.none).1.1
      = Except.error (PyExc.exc "socket.error: connection reset")
  ∧ PyExc.isDokuWikiError (PyExc.exc "socket.error: connection reset") = false :=
  ⟨rfl, rfl⟩

/-- C8 (amended): every public client method attempts its named remote
procedure at most once per invocation — exactly once for the remote-bound
methods, never for the stubs — whatever the outcome; a fault is surfaced
as the typed `DokuWikiXMLRPCError`, while a transport failure propagates
as the underlying untyped exception; in both cases the method raises and
stops, never attempting the procedure a second time. -/
theorem remote_procedure_attempted_at_most_once :
    ∀ (env : Env) (s : String) (f : Fault) (self : DokuWikiClient) (a b c d : XValue),
      ((DokuWikiClient.page env self a b).1.2.length = 1
      ∧ (DokuWikiClient.page_versions env self a b).1.2.length = 1
      ∧ (DokuWikiClient.page_info env self a b).1.2.length = 1
      ∧ (DokuWikiClient.page_html env self a b).1.2.length = 1
      ∧ (DokuWikiClient.put_page env self a b c d).1.2.length = 1
      ∧ (DokuWikiClient.all_pages env self).1.2.length = 1
      ∧ (DokuWikiClient.backlinks env self a).1.2.length = 1
      ∧ (DokuWikiClient.links env self a).1.2.length = 1
      ∧ (DokuWikiClient.recent_changes env self a).1.2.length = 1
      ∧ (DokuWikiClient.acl_check env self a).1.2.length = 1
      ∧ (DokuWikiClient.rpc_version_supported env self).1.2.length = 1
      ∧ (DokuWikiClient.put_file env self a b c d).1.2.length = 0
      ∧ (DokuWikiClient.list_files env self a).1.2.length = 0)
    ∧ (DokuWikiClient.page (envFault f) self a b).1.1 = typedErr f
    ∧ (DokuWikiClient.page (envNet s) self a b).1.1 = Except.error (PyExc.exc s)
    ∧ PyExc.isDokuWikiError (PyExc.exc s) = false := by
  intro env s f self a b c d
  refine ⟨⟨?_, ?_, ?_, ?_, ?_, ?_, ?_, ?_, ?_, ?_, ?_, rfl, rfl⟩, ?_, ?_, rfl⟩
  · obtain ⟨rc, hrc⟩ := page_calls env self a b
    rw [hrc]
    rfl
  · simp only [DokuWikiClient.page_versions, rpcCall_snd, List.length_singleton]
  · obtain ⟨rc, hrc⟩ := page_info_calls env self a b
    rw [hrc]
    rfl
  · obtain ⟨rc, hrc⟩ := page_html_calls env self a b
    rw [hrc]
    rfl
  · obtain ⟨rc, hrc⟩ := put_page_calls env self a b c d
    rw [hrc]
    rfl
  · simp only [DokuWikiClient.all_pages, rpcCall_snd, List.length_singleton]
  · simp only [DokuWikiClient.backlinks, rpcCall_snd, List.length_singleton]
  · simp only [DokuWikiClient.links, rpcCall_snd, List.length_singleton]
  · simp only [DokuWikiClient.recent_changes, rpcCall_snd, List.length_singleton]
  · simp only [DokuWikiClient.acl_check, rpcCall_snd, List.length_singleton]
  · simp only [DokuWikiClient.rpc_version_supported, rpcCall_snd, List.length_singleton]
  · unfold DokuWikiClient.page
    split <;> rfl
  · unfold DokuWikiClient.page
    split <;> rfl

lemma formatDictList_dicts (ds : List (List (String × XValue))) :
    Callback.formatDictList (ds.map XValue.dict)
      = .ok ((ds.map (fun kvs =>
          kvs.map (fun kv => kv.1 ++ ": " ++ XValue.pystr kv.2) ++ ["\n"])).flatten) := by
  induction ds with
  | nil => rfl
  | cons d ds ih =>
      simp only [List.map_cons, Callback.formatDictList, pyKeys, ih, List.flatten_cons]

/-- C6: for each selected flag the dispatcher fixes the documented format
tag (`page`/`page_html` plain, `backlinks`/`all_pages` list,
`page_info`/`page_versions`/`links`/`recent_changes` dict), and on a
non-empty result the formats behave as stated: `plain` prints the value
as-is, `list` prints one item per line, `dict` prints `key: value` lines
— per mapping for a list of mappings. -/
theorem format_by_structure :
    (∀ data : XValue, data.isTruthy = true →
        Callback.formatOutput data "plain" = .ok [data.pystr])
  ∧ (∀ xs : List XValue, (XValue.list xs).isTruthy = true →
        Callback.formatOutput (.list xs) "list" = .ok (xs.map XValue.pystr))
  ∧ (∀ kvs : List (String × XValue), (XValue.dict kvs).isTruthy = true →
        Callback.formatOutput (.dict kvs) "dict"
          = .ok (kvs.map (fun kv => kv.1 ++ ": " ++ XValue.pystr kv.2)))
  ∧ (∀ ds : List (List (String × XValue)),
        (XValue.list (ds.map XValue.dict)).isTruthy = true →
        Callback.formatOutput (.list (ds.map XValue.dict)) "dict"
          = .ok ((ds.map (fun kvs =>
              kvs.map (fun kv => kv.1 ++ ": " ++ XValue.pystr kv.2) ++ ["\n"])).flatten))
  ∧ (∀ (env : Env) (client : DokuWikiClient) (pv : ParserValues) (d : XValue) (f : String),
        ((Callback.dispatch env client pv .page).1 = .ok (d, f) → f = "plain")
      ∧ ((Callback.dispatch env client pv .page_html).1 = .ok (d, f) → f = "plain")
      ∧ ((Callback.dispatch env client pv .backlinks).1 = .ok (d, f) → f = "list")
      ∧ ((Callback.dispatch env client pv .all_pages).1 = .ok (d, f) → f = "list")
      ∧ ((Callback.dispatch env client pv .page_info).1 = .ok (d, f) → f = "dict")
      ∧ ((Callback.dispatch env client pv .page_versions).1 = .ok (d, f) → f = "dict")
      ∧ ((Callback.dispatch env client pv .links).1 = .ok (d, f) → f = "dict")
      ∧ ((Callback.dispatch env client pv .recent_changes).1 = .ok (d, f) → f = "dict")) := by
  refine ⟨?_, ?_, ?_, ?_, ?_⟩
  · intro data h
    unfold Callback.formatOutput
    rw [h]
    rfl
  · intro xs h
    unfold Callback.formatOutput
    rw [h]
    rfl
  · intro kvs h
    unfold Callback.formatOutput
    rw [h]
    rfl
  · intro ds h
    unfold Callback.formatOutput
    rw [h]
    show Callback.formatDictList (ds.map XValue.dict) = _
    exact formatDictList_dicts ds
  · intro env client pv d f
    refine ⟨?_, ?_, ?_, ?_, ?_, ?_, ?_, ?_⟩ <;> intro h <;>
        unfold Callback.dispatch at h <;>
        first
          | exact withFormat_fst_ok h
          | (cases hg : Callback._get_page_id pv.rargs with
             | error e => simp [hg] at h
             | ok pid =>
                 simp only [hg] at h
                 first
                   | exact withFormat_fst_ok h
                   | (cases ht : optIntTruthy pv.timestamp <;>
                        simp only [ht, Bool.not_false, Bool.not_true,
                          if_true, if_false, Bool.false_eq_true, Bool.true_eq_false,
                          ite_true, ite_false] at h <;>
                        exact withFormat_fst_ok h))

/-- Witness for C6 at concrete values of each shape. -/
theorem format_by_structure_witness :
    Callback.formatOutput (XValue.str "txt") "plain" = .ok ["txt"]
  ∧ Callback.formatOutput (XValue.list [XValue.str "a", XValue.str "b"]) "list"
      = .ok ["a", "b"]
  ∧ Callback.formatOutput (XValue.dict [("k", XValue.str "v")]) "dict" = .ok ["k: v"]
  ∧ Callback.formatOutput (XValue.list [XValue.dict [("k", XValue.str "v")]]) "dict"
      = .ok ["k: v", "\n"] :=
  ⟨format_by_structure.1 (XValue.str "txt") rfl,
   format_by_structure.2.1 [XValue.str "a", XValue.str "b"] rfl,
   format_by_structure.2.2.1 [("k", XValue.str "v")] rfl,
   format_by_structure.2.2.2.1 [[("k", XValue.str "v")]] rfl⟩

lemma dispatch_ok_single_call (env : Env) (client : DokuWikiClient) (pv : ParserValues)
    (opt : CliOption) (x : XValue × String) (cs : List RemoteCall)
    (h : Callback.dispatch env client pv opt = (.ok x, cs)) :
    ∃ c, cs = [c] := by
  have h1 : (Callback.dispatch env client pv opt).1 = .ok x := by rw [h]
  have h2 : (Callback.dispatch env client pv opt).2 = cs := by rw [h]
  subst h2
  cases opt
  case page =>
    unfold Callback.dispatch at h1 ⊢
    cases hg : Callback._get_page_id pv.rargs with
    | error e => simp [hg] at h1
    | ok pid =>
        simp only [hg]
        cases ht : optIntTruthy pv.timestamp <;>
          simp only [ht, Bool.not_false, Bool.not_true, if_true, if_false,
            Bool.false_eq_true, Bool.true_eq_false, ite_true, ite_false] <;>
          rw [withFormat_snd] <;> exact page_calls env client _ _
  case page_html =>
    unfold Callback.dispatch at h1 ⊢
    cases hg : Callback._get_page_id pv.rargs with
    | error e => simp [hg] at h1
    | ok pid =>
        simp only [hg]
        cases ht : optIntTruthy pv.timestamp <;>
          simp only [ht, Bool.not_false, Bool.not_true, if_true, if_false,
            Bool.false_eq_true, Bool.true_eq_false, ite_true, ite_false] <;>
          rw [withFormat_snd] <;> exact page_html_calls env client _ _
  case page_info =>
    unfold Callback.dispatch at h1 ⊢
    cases hg : Callback._get_page_id pv.rargs with
    | error e => simp [hg] at h1
    | ok pid =>
        simp only [hg]
        rw [withFormat_snd]
        exact page_info_calls env client _ _
  case page_versions =>
    unfold Callback.dispatch at h1 ⊢
    cases hg : Callback._get_page_id pv.rargs with
    | error e => simp [hg] at h1
    | ok pid =>
        simp only [hg]
        rw [withFormat_snd]
        exact ⟨_, rpcCall_snd env _⟩
  case backlinks =>
    unfold Callback.dispatch at h1 ⊢
    cases hg : Callback._get_page_id pv.rargs with
    | error e => simp [hg] at h1
    | ok pid =>
        simp only [hg]
        rw [withFormat_snd]
        exact ⟨_, rpcCall_snd env _⟩
  case links =>
    unfold Callback.dispatch at h1 ⊢
    cases hg : Callback._get_page_id pv.rargs with
    | error e => simp [hg] at h1
    | ok pid =>
        simp only [hg]
        rw [withFormat_snd]
        exact ⟨_, rpcCall_snd env _⟩
  case all_pages =>
    unfold Callback.dispatch
    rw [withFormat_snd]
    exact ⟨_, rpcCall_snd env _⟩
  case recent_changes =>
    simp only [Callback.dispatch]
    rw [withFormat_snd]
    exact ⟨_, rpcCall_snd env _⟩

/-- C4 counterexample: a run with the raw-page flag against a healthy wiki
succeeds and performs two named remote operations in total — the
construction version handshake plus the one dispatched `wiki.getPage` —
refuting "exactly one remote operation in total". -/
theorem cli_run_performs_two_remote_operations :
    (Callback.run envOk pvOk CliOption.page).1 = Except.ok ["release 2008-05-05"]
  ∧ countRemoteOps (Callback.run envOk pvOk CliOption.page).2 = 2
  ∧ countRemoteOps (Callback.run envOk pvOk CliOption.page).2 ≠ 1 :=
  ⟨rfl, rfl, by decide⟩

/-- C4 (amended): with full credentials, a successful run is the sequence
flag parsing, client construction (two reachability probes and the one
`dokuwiki.getVersion` handshake), exactly one dispatched remote call,
structural formatting, text output — two named remote operations in
total; the run is a pure function of the flags and the environment, so no
component retains state across invocations. -/
theorem cli_run_single_dispatched_call :
    ∀ (env : Env) (pv : ParserValues) (opt : CliOption) (lines : List String)
      (tr : List Event),
      Callback.run env pv opt = (.ok lines, tr) →
      (optStrTruthy pv.user && optStrTruthy pv.wiki && optStrTruthy pv.passwd) = true →
      ∃ c : RemoteCall,
        tr = [Event.urlCheck (pv.wiki.getD "" ++ "/lib/exe/xmlrpc.php?"),
              Event.urlCheck (pv.wiki.getD "" ++ "/lib/exe/xmlrpc.php?"),
              Event.remote ⟨"dokuwiki.getVersion", []⟩,
              Event.remote c]
      ∧ countRemoteOps tr = 2 ∧ countUrlChecks tr = 2 := by
  intro env pv opt lines tr h hc
  unfold Callback.run at h
  split at h
  case isFalse hcond => exact absurd hc hcond
  case isTrue =>
    split at h
    case h_1 => simp at h
    case h_2 => simp at h
    case h_3 => simp at h
    case h_4 client trI heq =>
      split at h
      case h_1 => simp at h
      case h_2 data fmt cs heqd =>
        split at h
        case h_1 => simp at h
        case h_2 ls heqf =>
          obtain ⟨-, htr⟩ := Prod.mk.injEq .. ▸ h
          obtain ⟨-, -, -, htrI⟩ :=
            init_ok_inv env (pv.wiki.getD "") (pv.user.getD "") (pv.passwd.getD "")
              client trI heq
          obtain ⟨c, hcs⟩ := dispatch_ok_single_call env client pv opt (data, fmt) cs heqd
          subst htrI hcs
          refine ⟨c, ?_, ?_, ?_⟩ <;> rw [← htr] <;> rfl

/-- Witness for C4 (amended) at a concrete healthy run. -/
theorem cli_run_single_dispatched_call_witness :
    ∃ c : RemoteCall,
      [Event.urlCheck "http://wiki.example.org/lib/exe/xmlrpc.php?",
       Event.urlCheck "http://wiki.example.org/lib/exe/xmlrpc.php?",
       Event.remote ⟨"dokuwiki.getVersion", []⟩,
       Event.remote ⟨"wiki.getPage", [XValue.str "wiki:start"]⟩]
        = [Event.urlCheck (pvOk.wiki.getD "" ++ "/lib/exe/xmlrpc.php?"),
           Event.urlCheck (pvOk.wiki.getD "" ++ "/lib/exe/xmlrpc.php?"),
           Event.remote ⟨"dokuwiki.getVersion", []⟩,
           Event.remote c]
    ∧ countRemoteOps
        [Event.urlCheck "http://wiki.example.org/lib/exe/xmlrpc.php?",
         Event.urlCheck "http://wiki.example.org/lib/exe/xmlrpc.php?",
         Event.remote ⟨"dokuwiki.getVersion", []⟩,
         Event.remote ⟨"wiki.getPage", [XValue.str "wiki:start"]⟩] = 2
    ∧ countUrlChecks
        [Event.urlCheck "http://wiki.example.org/lib/exe/xmlrpc.php?",
         Event.urlCheck "http://wiki.example.org/lib/exe/xmlrpc.php?",
         Event.remote ⟨"dokuwiki.getVersion", []⟩,
         Event.remote ⟨"wiki.getPage", [XValue.str "wiki:start"]⟩] = 2 :=
  cli_run_single_dispatched_call envOk pvOk CliOption.page ["release 2008-05-05"]
    [Event.urlCheck "http://wiki.example.org/lib/exe/xmlrpc.php?",
     Event.urlCheck "http://wiki.example.org/lib/exe/xmlrpc.php?",
     Event.remote ⟨"dokuwiki.getVersion", []⟩,
     Event.remote ⟨"wiki.getPage", [XValue.str "wiki:start"]⟩] rfl rfl

end Dokuwikixmlrpc
